import Mathlib

/-!
Verification of the LTR-329 ambient-light-sensor driver (LTR-329.c /
LTR-329.h): register map, decode tables, raw reader and lux estimator,
embedded shallowly, with theorems checking the specification.

Modelling conventions: every C integer is a Nat with an explicit mod
where the C type would truncate; the float lux value is an Option ℚ in
which some q stands for a finite float of exact value q (rounding is not
modelled) and none for a non-finite float (infinity or NaN, as produced
by a float division by zero); the I2C bus is a function from register
address to a result carrying the HAL status and the byte left in the
caller's buffer.
-/

/-- Register address of the ALS control register (LTR-329.h line 21). -/
def LTR_329_ALS_CONTR : Nat := 0x80

/-- Register address of the channel-1 low byte (LTR-329.h line 24). -/
def LTR_329_ALS_DATA_CH1_0 : Nat := 0x88

/-- Register address of the channel-1 high byte (LTR-329.h line 25). -/
def LTR_329_ALS_DATA_CH1_1 : Nat := 0x89

/-- Register address of the channel-0 low byte (LTR-329.h line 26). -/
def LTR_329_ALS_DATA_CH0_0 : Nat := 0x8A

/-- Register address of the channel-0 high byte (LTR-329.h line 27). -/
def LTR_329_ALS_DATA_CH0_1 : Nat := 0x8B

/-- Register address of the ALS status register (LTR-329.h line 28). -/
def LTR_329_ALS_STATUS : Nat := 0x8C

/-- Gain lookup table gainMap (LTR-329.c line 29). -/
def gainMap : List Nat := [1, 2, 4, 8, 48, 96]

/-- Integration-time lookup table intTimeMap in milliseconds
    (LTR-329.c line 30). -/
def intTimeMap : List Nat := [100, 50, 200, 400, 150, 250, 300, 350]

/-- Gain decode switch of LTR_329_Read_All (LTR-329.c lines 163-187).
    The C switch tests the raw byte read from the control register; the
    default branch stores the invalid marker 0. -/
def decodeGain (b : Nat) : Nat :=
  match b with
  | 0 => gainMap[0]
  | 1 => gainMap[1]
  | 2 => gainMap[2]
  | 3 => gainMap[3]
  | 6 => gainMap[4]
  | 7 => gainMap[5]
  | _ => 0

/-- Integration-time decode switch of LTR_329_Read_All (LTR-329.c lines
    197-226).  The C switch tests the raw byte read from the status
    register; the default branch stores 0. -/
def decodeIntegrationTime (b : Nat) : Nat :=
  match b with
  | 0 => intTimeMap[0]
  | 1 => intTimeMap[1]
  | 2 => intTimeMap[2]
  | 3 => intTimeMap[3]
  | 4 => intTimeMap[4]
  | 5 => intTimeMap[5]
  | 6 => intTimeMap[6]
  | 7 => intTimeMap[7]
  | _ => 0

/-- Sample aggregate LTR329_t (LTR-329.h lines 33-41).  alsLuxData is
    the float lux field, modelled as Option ℚ (none = non-finite). -/
structure LTR329 where
  c0Data : Nat
  c1Data : Nat
  alsGainDataBinary : Nat
  alsGainData : Nat
  alsIntDataBinary : Nat
  alsIntData : Nat
  alsLuxData : Option ℚ
deriving DecidableEq

/-- Float division chain num / gain / intTime appearing in every lux
    formula branch (LTR-329.c lines 253, 258, 263).  A zero divisor at
    either stage makes the float result non-finite (±infinity or NaN),
    modelled as none; otherwise the result is the exact quotient. -/
def fdivChain (num : ℚ) (gain intTime : Nat) : Option ℚ :=
  if gain = 0 ∨ intTime = 0 then none
  else some (num / (gain : ℚ) / (intTime : ℚ))

/-- LTR_329_Calculate_Lux (LTR-329.c lines 241-270), translated
    statement by statement.  The guard at line 244 only assigns
    alsLuxData and does not return, so control always falls through to
    the ratio computation and the if-chain, every branch of which
    overwrites alsLuxData.  When c0Data + c1Data = 0 the float ratio is
    0/0 = NaN, every range comparison on it is false, and the final else
    at line 268 assigns 0.0: that case is the first branch below.  When
    the sum is nonzero the float ratio is modelled as the exact rational
    c1/(c0+c1). -/
def LTR_329_Calculate_Lux (s : LTR329) : LTR329 :=
  let s1 := if s.alsGainData = 0 ∨ s.alsIntData = 0 ∨ s.c0Data + s.c1Data = 0 then
    { s with alsLuxData := some 0 } else s
  if s1.c0Data + s1.c1Data = 0 then
    { s1 with alsLuxData := some 0 }
  else
    let r : ℚ := (s1.c1Data : ℚ) / ((s1.c0Data : ℚ) + (s1.c1Data : ℚ))
    if r < 45/100 then
      let lux := fdivChain (17743/10000 * (s1.c0Data : ℚ) + 11059/10000 * (s1.c1Data : ℚ))
        s1.alsGainData s1.alsIntData
      { s1 with alsLuxData := lux }
    else if r < 64/100 ∧ 45/100 ≤ r then
      let lux := fdivChain (42785/10000 * (s1.c0Data : ℚ) - 19548/10000 * (s1.c1Data : ℚ))
        s1.alsGainData s1.alsIntData
      { s1 with alsLuxData := lux }
    else if r < 85/100 ∧ 64/100 ≤ r then
      let lux := fdivChain (5926/10000 * (s1.c0Data : ℚ) + 1185/10000 * (s1.c1Data : ℚ))
        s1.alsGainData s1.alsIntData
      { s1 with alsLuxData := lux }
    else
      { s1 with alsLuxData := some 0 }

/-- Lux computation on plain inputs: LTR_329_Calculate_Lux run on a
    sample holding them (the header prototype at LTR-329.h line 52 gives
    the same computation the signature (c0, c1, gain, intTime) → float). -/
def computeLux (c0 c1 gain intTime : Nat) : Option ℚ :=
  (LTR_329_Calculate_Lux
    { c0Data := c0, c1Data := c1, alsGainDataBinary := 0, alsGainData := gain,
      alsIntDataBinary := 0, alsIntData := intTime, alsLuxData := some 0 }).alsLuxData

/-- Formula selection as the specification words it: choose by the ratio
    c1/(c0+c1) over half-open intervals with boundaries 0.45, 0.64 and
    0.85 (reference definition for comparing the estimator against). -/
def luxSpecSelect (c0 c1 gain intTime : Nat) : ℚ :=
  let r : ℚ := (c1 : ℚ) / ((c0 : ℚ) + (c1 : ℚ))
  if r < 45/100 then
    (17743/10000 * (c0 : ℚ) + 11059/10000 * (c1 : ℚ)) / (gain : ℚ) / (intTime : ℚ)
  else if r < 64/100 then
    (42785/10000 * (c0 : ℚ) - 19548/10000 * (c1 : ℚ)) / (gain : ℚ) / (intTime : ℚ)
  else if r < 85/100 then
    (5926/10000 * (c0 : ℚ) + 1185/10000 * (c1 : ℚ)) / (gain : ℚ) / (intTime : ℚ)
  else 0

/-- Gain-code extraction as the specification words it:
    (byte & 0b00011100) >> 2. -/
def specGainCodeOf (b : Nat) : Nat := (b &&& 0x1C) >>> 2

/-- Integration-time-code extraction as the specification words it:
    (byte & 0b00111000) >> 3. -/
def specIntTimeCodeOf (b : Nat) : Nat := (b &&& 0x38) >>> 3

/-- Result of one HAL byte read: ok is the HAL status (true = HAL_OK)
    and val the byte left in the caller's buffer, meaningful on success
    and arbitrary junk on failure. -/
structure BusResult where
  ok : Bool
  val : Nat
deriving DecidableEq

/-- Trace of one LTR_329_Read_All call: the final sample state, the
    register addresses read in order, and the addresses whose reads
    failed (each such failure is reported over UART in the C code). -/
structure ReadTrace where
  state : LTR329
  attempted : List Nat
  errors : List Nat
deriving DecidableEq

/-- One register read inside LTR_329_Read_All: calls the bus, records
    the attempted address, logs an error when the HAL status is not
    HAL_OK (the C code prints and continues), and yields the byte held
    by the local uint8_t variable afterwards. -/
def readStep (bus : Nat → BusResult) (addr : Nat) (t : ReadTrace) : Nat × ReadTrace :=
  ((bus addr).val % 256,
   { t with attempted := t.attempted ++ [addr],
            errors := t.errors ++ (if (bus addr).ok then [] else [addr]) })

/-- LTR_329_Read_All (LTR-329.c lines 119-227), translated statement by
    statement: six register reads in program order, the two 16-bit
    channel assemblies (high << 8 | low, stored into a uint16_t), then
    the gain switch applied to the raw control byte and the
    integration-time switch applied to the raw status byte.  No read
    failure aborts the sequence: each failure is logged and the
    following statements still execute. -/
def LTR_329_Read_All (bus : Nat → BusResult) (s : LTR329) : ReadTrace :=
  let t0 : ReadTrace := { state := s, attempted := [], errors := [] }
  let p1 := readStep bus LTR_329_ALS_DATA_CH1_0 t0
  let p2 := readStep bus LTR_329_ALS_DATA_CH1_1 p1.2
  let t2 := { p2.2 with state :=
    { p2.2.state with c1Data := ((p2.1 <<< 8) ||| p1.1) % 65536 } }
  let p3 := readStep bus LTR_329_ALS_DATA_CH0_0 t2
  let p4 := readStep bus LTR_329_ALS_DATA_CH0_1 p3.2
  let t4 := { p4.2 with state :=
    { p4.2.state with c0Data := ((p4.1 <<< 8) ||| p3.1) % 65536 } }
  let p5 := readStep bus LTR_329_ALS_CONTR t4
  let t5 := { p5.2 with state :=
    { p5.2.state with alsGainData := decodeGain p5.1 } }
  let p6 := readStep bus LTR_329_ALS_STATUS t5
  { p6.2 with state :=
    { p6.2.state with alsIntData := decodeIntegrationTime p6.1 } }

/-- Bus model answering every read successfully with byte 0, except at
    address addr where it answers byte b. -/
def busWith (addr b : Nat) : Nat → BusResult :=
  fun a => if a = addr then { ok := true, val := b } else { ok := true, val := 0 }

/-- Sample state with all fields zeroed. -/
def initSample : LTR329 :=
  { c0Data := 0, c1Data := 0, alsGainDataBinary := 0, alsGainData := 0,
    alsIntDataBinary := 0, alsIntData := 0, alsLuxData := some 0 }

/-- With a nonzero gain, nonzero integration time and nonzero channel
    sum, the estimator's if-chain agrees with the spec-worded half-open
    interval selection and every division has a nonzero divisor. -/
theorem computeLux_eq_select (c0 c1 gain intTime : Nat) (hg : gain ≠ 0)
    (ht : intTime ≠ 0) (hc : c0 + c1 ≠ 0) :
    computeLux c0 c1 gain intTime = some (luxSpecSelect c0 c1 gain intTime) := by
  have hguard : ¬(gain = 0 ∨ intTime = 0 ∨ c0 + c1 = 0) := by tauto
  simp only [computeLux, LTR_329_Calculate_Lux, luxSpecSelect, fdivChain,
    if_neg hguard, if_neg hc]
  by_cases h1 : (c1 : ℚ) / ((c0 : ℚ) + (c1 : ℚ)) < 45/100
  · simp [h1, hg, ht]
  · by_cases h2 : (c1 : ℚ) / ((c0 : ℚ) + (c1 : ℚ)) < 64/100
    · have h1b : 45/100 ≤ (c1 : ℚ) / ((c0 : ℚ) + (c1 : ℚ)) := le_of_not_lt h1
      simp [h1, h2, h1b, hg, ht]
    · by_cases h3 : (c1 : ℚ) / ((c0 : ℚ) + (c1 : ℚ)) < 85/100
      · have h2b : 64/100 ≤ (c1 : ℚ) / ((c0 : ℚ) + (c1 : ℚ)) := le_of_not_lt h2
        simp [h1, h2, h3, h2b, hg, ht]
      · simp [h1, h2, h3]

/-- C1: with nonzero gain, nonzero integration time and nonzero channel
    sum, the lux estimator selects its formula by the ratio c1/(c0+c1)
    over half-open intervals with boundaries 0.45, 0.64 and 0.85; in
    particular a ratio exactly 0.45 selects the second formula, a ratio
    exactly 0.64 the third, and a ratio at least 0.85 yields 0.0. -/
theorem C1_formula_selection (c0 c1 gain intTime : Nat) (hg : gain ≠ 0)
    (ht : intTime ≠ 0) (hc : c0 + c1 ≠ 0) :
    computeLux c0 c1 gain intTime = some (luxSpecSelect c0 c1 gain intTime) ∧
    ((c1 : ℚ) / ((c0 : ℚ) + (c1 : ℚ)) = 45/100 →
      computeLux c0 c1 gain intTime =
        some ((42785/10000 * (c0 : ℚ) - 19548/10000 * (c1 : ℚ)) / (gain : ℚ) / (intTime : ℚ))) ∧
    ((c1 : ℚ) / ((c0 : ℚ) + (c1 : ℚ)) = 64/100 →
      computeLux c0 c1 gain intTime =
        some ((5926/10000 * (c0 : ℚ) + 1185/10000 * (c1 : ℚ)) / (gain : ℚ) / (intTime : ℚ))) ∧
    (85/100 ≤ (c1 : ℚ) / ((c0 : ℚ) + (c1 : ℚ)) →
      computeLux c0 c1 gain intTime = some 0) := by
  have hmain := computeLux_eq_select c0 c1 gain intTime hg ht hc
  refine ⟨hmain, ?_, ?_, ?_⟩
  · intro hr
    rw [hmain]
    simp only [luxSpecSelect]
    rw [hr]
    norm_num
  · intro hr
    rw [hmain]
    simp only [luxSpecSelect]
    rw [hr]
    norm_num
  · intro hr
    rw [hmain]
    simp only [luxSpecSelect]
    rw [if_neg (by linarith), if_neg (by linarith), if_neg (not_lt.mpr hr)]

/-- C1 witness: the selection property instantiated at the boundary
    input c0=55, c1=45, gain=1, intTimeMs=100. -/
theorem C1_formula_selection_witness :
    computeLux 55 45 1 100 = some (luxSpecSelect 55 45 1 100) ∧
    (((45 : Nat) : ℚ) / (((55 : Nat) : ℚ) + ((45 : Nat) : ℚ)) = 45/100 →
      computeLux 55 45 1 100 =
        some ((42785/10000 * ((55 : Nat) : ℚ) - 19548/10000 * ((45 : Nat) : ℚ)) /
          (((1 : Nat)) : ℚ) / (((100 : Nat)) : ℚ))) ∧
    (((45 : Nat) : ℚ) / (((55 : Nat) : ℚ) + ((45 : Nat) : ℚ)) = 64/100 →
      computeLux 55 45 1 100 =
        some ((5926/10000 * ((55 : Nat) : ℚ) + 1185/10000 * ((45 : Nat) : ℚ)) /
          (((1 : Nat)) : ℚ) / (((100 : Nat)) : ℚ))) ∧
    (85/100 ≤ ((45 : Nat) : ℚ) / (((55 : Nat) : ℚ) + ((45 : Nat) : ℚ)) →
      computeLux 55 45 1 100 = some 0) :=
  C1_formula_selection 55 45 1 100 (by decide) (by decide) (by decide)

/-- C4: gain decoding maps each valid code to its table value and the
    invalid codes 4 and 5 to the explicit invalid marker 0. -/
theorem C4_decodeGain_table :
    decodeGain 0 = 1 ∧ decodeGain 1 = 2 ∧ decodeGain 2 = 4 ∧
    decodeGain 3 = 8 ∧ decodeGain 6 = 48 ∧ decodeGain 7 = 96 ∧
    decodeGain 4 = 0 ∧ decodeGain 5 = 0 := by
  decide

/-- C5: integration-time decoding is total over codes 0 through 7, with
    each code mapped to the exact table value in milliseconds and none
    mapped to an invalid case. -/
theorem C5_decodeIntegrationTime_table :
    decodeIntegrationTime 0 = 100 ∧ decodeIntegrationTime 1 = 50 ∧
    decodeIntegrationTime 2 = 200 ∧ decodeIntegrationTime 3 = 400 ∧
    decodeIntegrationTime 4 = 150 ∧ decodeIntegrationTime 5 = 250 ∧
    decodeIntegrationTime 6 = 300 ∧ decodeIntegrationTime 7 = 350 := by
  decide

/-- C3: with both channels zero the lux computation returns 0.0 for
    every gain and integration time: the 0/0 float ratio is NaN, every
    range test on it is false, and the final else assigns 0.0. -/
theorem C3_zero_channels (gain intTime : Nat) :
    computeLux 0 0 gain intTime = some 0 := by
  simp [computeLux, LTR_329_Calculate_Lux]

/-- C2: the claim that gain = 0 or intTimeMs = 0 makes the lux
    computation return 0.0 fails on the code: the guard assigns 0.0 but
    does not return, the if-chain recomputes lux, and the division by
    the zero parameter makes the result non-finite (modelled none), not
    0.0.  Shown at c0=100, c1=0 with gain=0 and with intTimeMs=0. -/
theorem C2_guard_fallthrough :
    computeLux 100 0 0 100 = none ∧ computeLux 100 0 1 0 = none ∧
    computeLux 100 0 0 100 ≠ some 0 := by
  norm_num [computeLux, LTR_329_Calculate_Lux, fdivChain]
  simp

/-- C10: the lux computation writes only the alsLuxData field; both raw
    channels, both decoded settings and both raw binary code fields are
    left unchanged for every starting sample state. -/
theorem C10_calculateLux_frame (s : LTR329) :
    (LTR_329_Calculate_Lux s).c0Data = s.c0Data ∧
    (LTR_329_Calculate_Lux s).c1Data = s.c1Data ∧
    (LTR_329_Calculate_Lux s).alsGainDataBinary = s.alsGainDataBinary ∧
    (LTR_329_Calculate_Lux s).alsGainData = s.alsGainData ∧
    (LTR_329_Calculate_Lux s).alsIntDataBinary = s.alsIntDataBinary ∧
    (LTR_329_Calculate_Lux s).alsIntData = s.alsIntData := by
  refine ⟨?_, ?_, ?_, ?_, ?_, ?_⟩ <;>
    (unfold LTR_329_Calculate_Lux; dsimp only; split_ifs <;> rfl)

/-- C8: for every bus response and starting state, the reader stores
    into c1Data the byte read at 0x89 shifted left 8 or-combined with
    the byte read at 0x88, and into c0Data the byte read at 0x8B shifted
    left 8 or-combined with the byte read at 0x8A. -/
theorem C8_channel_assembly (bus : Nat → BusResult) (s : LTR329) :
    (LTR_329_Read_All bus s).state.c1Data =
      (((bus 0x89).val % 256) <<< 8) ||| ((bus 0x88).val % 256) ∧
    (LTR_329_Read_All bus s).state.c0Data =
      (((bus 0x8B).val % 256) <<< 8) ||| ((bus 0x8A).val % 256) := by
  have hb : ∀ hi lo : Nat, hi < 256 → lo < 256 → ((hi <<< 8) ||| lo) < 65536 := by
    intro hi lo hhi hlo
    have h1 : lo < 2 ^ 8 := hlo
    have h2 : hi < 2 ^ 8 := hhi
    have := Nat.append_lt h1 h2
    simpa using this
  constructor
  · simp [LTR_329_Read_All, readStep, LTR_329_ALS_DATA_CH1_0, LTR_329_ALS_DATA_CH1_1,
      Nat.mod_eq_of_lt (hb _ _ (Nat.mod_lt _ (by norm_num)) (Nat.mod_lt _ (by norm_num)))]
  · simp [LTR_329_Read_All, readStep, LTR_329_ALS_DATA_CH0_0, LTR_329_ALS_DATA_CH0_1,
      Nat.mod_eq_of_lt (hb _ _ (Nat.mod_lt _ (by norm_num)) (Nat.mod_lt _ (by norm_num)))]

/-- C9: for every bus response and starting state, all six byte reads
    of a full sample are attempted in program order, the failed
    addresses are exactly the logged errors in order, and both decode
    steps still run on the bytes read, so no failure aborts the sample. -/
theorem C9_best_effort (bus : Nat → BusResult) (s : LTR329) :
    (LTR_329_Read_All bus s).attempted =
      [0x88, 0x89, 0x8A, 0x8B, 0x80, 0x8C] ∧
    (LTR_329_Read_All bus s).errors =
      List.filter (fun a => !(bus a).ok) [0x88, 0x89, 0x8A, 0x8B, 0x80, 0x8C] ∧
    (LTR_329_Read_All bus s).state.alsGainData = decodeGain ((bus 0x80).val % 256) ∧
    (LTR_329_Read_All bus s).state.alsIntData =
      decodeIntegrationTime ((bus 0x8C).val % 256) := by
  refine ⟨?_, ?_, ?_, ?_⟩ <;>
    simp [LTR_329_Read_All, readStep, LTR_329_ALS_DATA_CH1_0, LTR_329_ALS_DATA_CH1_1,
      LTR_329_ALS_DATA_CH0_0, LTR_329_ALS_DATA_CH0_1, LTR_329_ALS_CONTR,
      LTR_329_ALS_STATUS, List.filter] <;>
    cases h88 : (bus 0x88).ok <;> cases h89 : (bus 0x89).ok <;>
    cases h8A : (bus 0x8A).ok <;> cases h8B : (bus 0x8B).ok <;>
    cases h80 : (bus 0x80).ok <;> cases h8C : (bus 0x8C).ok <;>
    simp [h88, h89, h8A, h8B, h80, h8C]

/-- C6: the claim that the reader extracts the gain code as
    (byte & 0b00011100) >> 2 before decoding fails on the code: the gain
    switch tests the raw control byte.  Bytes 0x00 and 0x01 agree on
    bits 2..4 (both extract code 0, which decodes to gain 1), yet the
    reader decodes them to gains 1 and 2 respectively. -/
theorem C6_no_gain_extraction :
    specGainCodeOf 0x00 = specGainCodeOf 0x01 ∧
    decodeGain (specGainCodeOf 0x01) = 1 ∧
    (LTR_329_Read_All (busWith LTR_329_ALS_CONTR 0x01) initSample).state.alsGainData = 2 ∧
    (LTR_329_Read_All (busWith LTR_329_ALS_CONTR 0x00) initSample).state.alsGainData = 1 := by
  decide

/-- C7: the claim that the reader extracts the integration-time code as
    (byte & 0b00111000) >> 3 before decoding fails on the code: the
    integration-time switch tests the raw status byte.  Bytes 0x00 and
    0x01 agree on bits 3..5 (both extract code 0, which decodes to
    100 ms), yet the reader decodes them to 100 ms and 50 ms
    respectively. -/
theorem C7_no_intTime_extraction :
    specIntTimeCodeOf 0x00 = specIntTimeCodeOf 0x01 ∧
    decodeIntegrationTime (specIntTimeCodeOf 0x01) = 100 ∧
    (LTR_329_Read_All (busWith LTR_329_ALS_STATUS 0x01) initSample).state.alsIntData = 50 ∧
    (LTR_329_Read_All (busWith LTR_329_ALS_STATUS 0x00) initSample).state.alsIntData = 100 := by
  decide
